import Mathlib

/-!
Shallow embedding of the HTTP notifier from `http/main.go` of
cloud-build-notifiers.

The file under verification is the notifier orchestrator: `SetUp` and
`SendNotification` on the `httpNotifier` struct.  External collaborators
(the CEL predicate compiler `notifiers.MakeCELPredicate`, the binding
resolver, the Go `text/template` engine, `notifiers.AddUTMParams`,
`http.NewRequestWithContext` URL validation and `http.DefaultClient.Do`)
live outside this source file; they are modelled as opaque function
parameters gathered in an `Externals` record, and the orchestrator logic
is translated line by line against them.

Go mutation is modelled by explicit state passing: `SetUp` and
`SendNotification` return the updated notifier (and, for the latter, the
updated build, the list of HTTP requests issued, and counters for how
many times the binding resolver and the template engine were invoked).
A method call on a nil receiver field, which panics in Go, is modelled
by the distinguished result `SendResult.nilPanic`; no theorem below ever
takes that branch, since all claims presuppose a successful `SetUp`.
-/

namespace CloudBuildNotifiersHttp

/-- Build status enumeration (a fragment of `cbpb.Build_Status` covering the
values the spec names). -/
inductive Status
  | statusUnknown
  | queued
  | working
  | success
  | failure
  | internalError
  | timeout
  | cancelled
  | expired
deriving DecidableEq, Repr

/-- The build event (`cbpb.Build`).  The notifier reads `Id`, `Status` and
`LogUrl` and writes only `LogUrl`; `projectId` stands in for the many
remaining fields of the proto, so that frame conditions ("every other field
unchanged") are statable. -/
structure Build where
  id : String
  projectId : String
  status : Status
  logUrl : String
deriving DecidableEq, Repr

/-- `notifiers.EventFilter`: a compiled predicate; only its `Apply` method is
used, so it is a boolean function of the build (the context argument plays
no role in the embedded code). -/
def EventFilter : Type := Build → Bool

/-- Bindings resolved per event (`map[string]string` in Go, used only by
key lookup, modelled as an association list). -/
abbrev Bindings := List (String × String)

/-- `notifiers.BindingResolver`: only `Resolve(ctx, nil, build)` is called,
so it is a function from the build to bindings or an error. -/
def BindingResolver : Type := Build → Except String Bindings

/-- `notifiers.TemplateView`: the composite handed to the template.  In Go it
holds a pointer to the build; here it holds the build by value.  Because of
that pointer, the Go template executes against the build as it stands at
execution time (after the LogUrl rewrite); the embedding passes the
annotated build at the execution site. -/
structure TemplateView where
  build : Build
  params : Bindings

/-- A parsed `text/template` template: only `Execute` is used, so it is a
function from the view to the rendered text or an execution error. -/
def Template : Type := TemplateView → Except String String

/-- An HTTP response, as far as the code observes it (`resp.StatusCode` and
`resp.Status`). -/
structure HttpResponse where
  statusCode : Nat
  status : String
deriving DecidableEq, Repr

/-- An outgoing HTTP request as the code assembles it. -/
structure HttpRequest where
  method : String
  url : String
  body : String
  headers : List (String × String)
deriving DecidableEq, Repr

/-- The external collaborators of `http/main.go`, treated as opaque
services:
* `makeCELPredicate` — `notifiers.MakeCELPredicate`;
* `parseTemplate` — `template.New("http_template").Parse`;
* `addUTMParams` — `notifiers.AddUTMParams(rawURL, medium)`;
* `newRequestOk` — whether `http.NewRequestWithContext` accepts the
  destination URL (it fails only on a malformed URL);
* `httpDo` — `http.DefaultClient.Do`: `.ok resp` when any response is
  received, `.error e` on a transport-level failure. -/
structure Externals where
  makeCELPredicate : String → Except String EventFilter
  parseTemplate : String → Except String Template
  addUTMParams : String → String → Except String String
  newRequestOk : String → Bool
  httpDo : HttpRequest → Except String HttpResponse

/-- `notifiers.HTTPMedium`, the medium tag passed to `AddUTMParams`. -/
def HTTPMedium : String := "http"

/-- A value in the delivery config map (`map[string]interface{}`): either a
string or something whose type assertion `.(string)` fails. -/
inductive ConfigValue
  | str (s : String)
  | other
deriving DecidableEq, Repr

/-- Lookup of `Delivery["url"].(string)`: returns the string iff the key is
present and its value is a string. -/
def lookupString (d : List (String × ConfigValue)) (k : String) : Option String :=
  match d.find? (fun kv => kv.1 = k) with
  | some (_, ConfigValue.str s) => some s
  | _ => none

/-- `cfg.Spec.Notification`: the filter expression and the delivery map. -/
structure Notification where
  filter : String
  delivery : List (String × ConfigValue)

/-- `cfg.Spec`. -/
structure Spec where
  notification : Notification

/-- `notifiers.Config` (the fields the notifier reads). -/
structure Config where
  spec : Spec

/-- The `httpNotifier` struct.  Pointer/interface fields are `Option`
(`none` is Go's nil zero value); `url` is a plain string (zero value ""). -/
structure HttpNotifier where
  filter : Option EventFilter
  tmpl : Option Template
  url : String
  br : Option BindingResolver
  tmplView : Option TemplateView

/-- `new(httpNotifier)`: the zero value every field nil/empty. -/
def initialNotifier : HttpNotifier :=
  { filter := none, tmpl := none, url := "", br := none, tmplView := none }

/-- Result of `SetUp`: nil or a non-nil error. -/
inductive SetupResult
  | ok
  | err (msg : String)
deriving DecidableEq, Repr

/-- `httpNotifier.SetUp`, translated line by line.  The Go error messages
interpolate runtime values with `%v`/`%w`; the embedding keeps the fixed
message prefix and appends the wrapped error where one exists. -/
def setUp (ext : Externals) (h : HttpNotifier) (cfg : Config)
    (httpTemplate : String) (br : BindingResolver) :
    SetupResult × HttpNotifier :=
  match ext.makeCELPredicate cfg.spec.notification.filter with
  | Except.error e => (SetupResult.err ("failed to create CELPredicate: " ++ e), h)
  | Except.ok prd =>
    let h1 : HttpNotifier := { h with filter := some prd, br := some br }
    match lookupString cfg.spec.notification.delivery "url" with
    | none =>
      (SetupResult.err "expected delivery config to have string field url", h1)
    | some url =>
      let h2 : HttpNotifier := { h1 with url := url }
      match ext.parseTemplate httpTemplate with
      | Except.error e => (SetupResult.err ("failed to parse template: " ++ e), h2)
      | Except.ok tmpl => (SetupResult.ok, { h2 with tmpl := some tmpl })

/-- Result of `SendNotification`: nil, a non-nil error, or a Go panic from a
method call on a nil receiver field (unreachable after a successful
`SetUp`). -/
inductive SendResult
  | ok
  | err (msg : String)
  | nilPanic
deriving DecidableEq, Repr

/-- Everything observable about one `SendNotification` call: the returned
error, the HTTP requests handed to the transport (in order), how many times
the binding resolver and the template engine were invoked, and the final
notifier and build states. -/
structure SendOutcome where
  result : SendResult
  requests : List HttpRequest
  resolveCalls : Nat
  renderCalls : Nat
  notifier : HttpNotifier
  build : Build

/-- The fixed `User-Agent` header value. -/
def userAgent : String := "GCB-Notifier/0.1 (http)"

/-- The request the code builds: `http.NewRequestWithContext(ctx, POST, url,
strings.NewReader(buf.String()))` followed by the two `Header.Set` calls. -/
def mkRequest (url body : String) : HttpRequest :=
  { method := "POST"
    url := url
    body := body
    headers := [("Content-Type", "application/json"), ("User-Agent", userAgent)] }

/-- What `json.NewEncoder(payload).Encode(buf)` writes into the `payload`
buffer: `buf` is a `bytes.Buffer`, a struct with no exported fields and no
custom JSON marshaller, so it marshals as the empty JSON object and `Encode`
appends a newline; this encoding cannot fail.  The `payload` buffer is never
used afterwards — the request body is `buf.String()`. -/
def encodedPayloadBuffer : String := "\x7b\x7d\n"

/-- `httpNotifier.SendNotification`, translated line by line.  Logging calls
have no observable effect and are omitted; in particular the final
`resp.StatusCode != http.StatusOK` check only emits a warning log, so both
response branches return nil. -/
def sendNotification (ext : Externals) (h : HttpNotifier) (build : Build) :
    SendOutcome :=
  match h.filter with
  | none =>
    { result := SendResult.nilPanic, requests := [], resolveCalls := 0,
      renderCalls := 0, notifier := h, build := build }
  | some filter =>
    if filter build = false then
      { result := SendResult.ok, requests := [], resolveCalls := 0,
        renderCalls := 0, notifier := h, build := build }
    else
      match h.br with
      | none =>
        { result := SendResult.nilPanic, requests := [], resolveCalls := 0,
          renderCalls := 0, notifier := h, build := build }
      | some br =>
        match br build with
        | Except.error e =>
          { result := SendResult.err ("failed to resolve bindings: " ++ e),
            requests := [], resolveCalls := 1, renderCalls := 0,
            notifier := h, build := build }
        | Except.ok bindings =>
          let h1 : HttpNotifier :=
            { h with tmplView := some { build := build, params := bindings } }
          match ext.addUTMParams build.logUrl HTTPMedium with
          | Except.error e =>
            { result := SendResult.err ("failed to add UTM params: " ++ e),
              requests := [], resolveCalls := 1, renderCalls := 0,
              notifier := h1, build := build }
          | Except.ok logURL =>
            let build1 : Build := { build with logUrl := logURL }
            match h1.tmpl with
            | none =>
              { result := SendResult.nilPanic, requests := [],
                resolveCalls := 1, renderCalls := 0,
                notifier := h1, build := build1 }
            | some tmpl =>
              match tmpl { build := build1, params := bindings } with
              | Except.error e =>
                { result := SendResult.err e, requests := [],
                  resolveCalls := 1, renderCalls := 1,
                  notifier := h1, build := build1 }
              | Except.ok rendered =>
                let _payload : String := encodedPayloadBuffer
                if ext.newRequestOk h1.url = false then
                  { result := SendResult.err "failed to create a new HTTP request",
                    requests := [], resolveCalls := 1, renderCalls := 1,
                    notifier := h1, build := build1 }
                else
                  match ext.httpDo (mkRequest h1.url rendered) with
                  | Except.error e =>
                    { result := SendResult.err ("failed to make HTTP request: " ++ e),
                      requests := [mkRequest h1.url rendered],
                      resolveCalls := 1, renderCalls := 1,
                      notifier := h1, build := build1 }
                  | Except.ok _resp =>
                    { result := SendResult.ok,
                      requests := [mkRequest h1.url rendered],
                      resolveCalls := 1, renderCalls := 1,
                      notifier := h1, build := build1 }

/-- Spec-side definition for the delivery format claim, following the spec's
words: "body = JSON-encoded string of the rendered template output" — the
rendered text wrapped as a single JSON string scalar, with the JSON string
escaping Go's `encoding/json` performs (sufficient here for quote and
backslash; no character of the scenarios needs further escaping). -/
def jsonEncodeString (s : String) : String :=
  "\"" ++ String.join (s.toList.map (fun c =>
    if c = '"' then "\\\"" else if c = '\\' then "\\\\" else String.singleton c)) ++ "\""

/-! Concrete scenario from the spec (section 8): event `b-1` with status
SUCCESS and log URL `https://x/log`, filter `status == SUCCESS`, template
`Build \x7b\x7b.Build.Id\x7d\x7d succeeded`, destination
`https://dest.example/hook`. -/

/-- The scenario event. -/
def build1 : Build :=
  { id := "b-1", projectId := "proj", status := Status.success,
    logUrl := "https://x/log" }

/-- The same event with status FAILURE (filtered out by the scenario
filter). -/
def buildFailed : Build := { build1 with status := Status.failure }

/-- The compiled form of the scenario filter `status == SUCCESS`. -/
def successFilter : EventFilter := fun b => b.status == Status.success

/-- The parsed form of the scenario template
`Build \x7b\x7b.Build.Id\x7d\x7d succeeded`: literal text around the
build id. -/
def scenarioTemplate : Template := fun v =>
  Except.ok ("Build " ++ v.build.id ++ " succeeded")

/-- The scenario template's source text. -/
def templateSource : String := "Build \x7b\x7b.Build.Id\x7d\x7d succeeded"

/-- A binding resolver that resolves no parameters (the scenario template
uses none). -/
def emptyResolver : BindingResolver := fun _ => Except.ok []

/-- A concrete stand-in for `AddUTMParams` on a well-formed URL: appends the
three UTM query parameters with the given medium. -/
def annotateUTM : String → String → Except String String := fun raw medium =>
  Except.ok (raw ++ "?utm_campaign=google-cloud-build-notifiers&utm_medium="
    ++ medium ++ "&utm_source=google-cloud-build")

/-- `build1.logUrl` after annotation by `annotateUTM` with `HTTPMedium`. -/
def annotatedLog : String :=
  "https://x/log?utm_campaign=google-cloud-build-notifiers&utm_medium=http&utm_source=google-cloud-build"

/-- Externals for the happy path: predicate compiles to `successFilter`, the
template parses to `scenarioTemplate`, annotation succeeds, the request is
accepted and the destination answers 200 OK. -/
def extOk : Externals :=
  { makeCELPredicate := fun _ => Except.ok successFilter
    parseTemplate := fun _ => Except.ok scenarioTemplate
    addUTMParams := annotateUTM
    newRequestOk := fun _ => true
    httpDo := fun _ => Except.ok { statusCode := 200, status := "200 OK" } }

/-- Externals where the destination answers 500 (a response is still
received). -/
def ext500 : Externals :=
  { extOk with
    httpDo := fun _ =>
      Except.ok { statusCode := 500, status := "500 Internal Server Error" } }

/-- Externals where the transport fails to obtain any response. -/
def extDown : Externals :=
  { extOk with httpDo := fun _ => Except.error "connection refused" }

/-- Externals where the event's log URL is not parseable, so `AddUTMParams`
fails. -/
def extBadLogUrl : Externals :=
  { extOk with addUTMParams := fun _ _ => Except.error "missing protocol scheme" }

/-- Externals where the filter expression does not compile. -/
def extBadFilter : Externals :=
  { extOk with
    makeCELPredicate := fun _ => Except.error "undeclared reference to field" }

/-- The scenario configuration: filter expression and a delivery map with a
string `url`. -/
def cfgOk : Config :=
  { spec := { notification :=
    { filter := "build.status == Build.Status.SUCCESS"
      delivery := [("url", ConfigValue.str "https://dest.example/hook")] } } }

/-- A configuration whose delivery map has no `url` key. -/
def cfgNoUrl : Config :=
  { spec := { notification :=
    { filter := "build.status == Build.Status.SUCCESS", delivery := [] } } }

/-- The notifier after a successful `SetUp` on the scenario configuration. -/
def readyNotifier : HttpNotifier :=
  (setUp extOk initialNotifier cfgOk templateSource emptyResolver).2

/-! Theorems. -/

/-- C3: for every event on which the compiled predicate evaluates to false,
`SendNotification` returns success (nil) and issues no HTTP request: zero
delivery attempts, zero binding resolutions, zero renderings; both the
notifier and the build are left untouched. -/
theorem filtered_event_is_noop (ext : Externals) (h : HttpNotifier)
    (build : Build) (f : EventFilter)
    (hf : h.filter = some f) (hfb : f build = false) :
    (sendNotification ext h build).result = SendResult.ok ∧
    (sendNotification ext h build).requests = [] ∧
    (sendNotification ext h build).resolveCalls = 0 ∧
    (sendNotification ext h build).renderCalls = 0 ∧
    (sendNotification ext h build).notifier = h ∧
    (sendNotification ext h build).build = build := by
  simp [sendNotification, hf, hfb]

/-- Witness for C3: the scenario event with status FAILURE is filtered out
and produces no effect. -/
theorem filtered_event_is_noop_witness :
    (sendNotification extOk readyNotifier buildFailed).result = SendResult.ok ∧
    (sendNotification extOk readyNotifier buildFailed).requests = [] ∧
    (sendNotification extOk readyNotifier buildFailed).resolveCalls = 0 ∧
    (sendNotification extOk readyNotifier buildFailed).renderCalls = 0 ∧
    (sendNotification extOk readyNotifier buildFailed).notifier = readyNotifier ∧
    (sendNotification extOk readyNotifier buildFailed).build = buildFailed :=
  filtered_event_is_noop extOk readyNotifier buildFailed successFilter rfl rfl

/-- C2: once the pipeline reaches delivery, any received HTTP response —
whatever its status code, e.g. 500 — yields a nil result; only a
transport-level failure to receive a response yields an error. -/
theorem any_received_response_is_success (ext : Externals) (h : HttpNotifier)
    (build : Build) (f : EventFilter) (br : BindingResolver) (bnd : Bindings)
    (u : String) (tmpl : Template) (rendered : String)
    (hf : h.filter = some f) (hfb : f build = true)
    (hbr : h.br = some br) (hres : br build = Except.ok bnd)
    (hutm : ext.addUTMParams build.logUrl HTTPMedium = Except.ok u)
    (htm : h.tmpl = some tmpl)
    (hren : tmpl { build := { build with logUrl := u }, params := bnd }
      = Except.ok rendered)
    (hreq : ext.newRequestOk h.url = true) :
    (∀ resp, ext.httpDo (mkRequest h.url rendered) = Except.ok resp →
      (sendNotification ext h build).result = SendResult.ok) ∧
    (∀ e, ext.httpDo (mkRequest h.url rendered) = Except.error e →
      (sendNotification ext h build).result =
        SendResult.err ("failed to make HTTP request: " ++ e)) := by
  constructor
  · intro resp hdo
    simp [sendNotification, hf, hfb, hbr, hres, hutm, htm, hren, hreq, hdo]
  · intro e hdo
    simp [sendNotification, hf, hfb, hbr, hres, hutm, htm, hren, hreq, hdo]

/-- Witness for C2: in the scenario where the destination answers 500, the
call still returns nil. -/
theorem any_received_response_is_success_witness :
    (sendNotification ext500 readyNotifier build1).result = SendResult.ok :=
  (any_received_response_is_success ext500 readyNotifier build1 successFilter
    emptyResolver [] annotatedLog scenarioTemplate "Build b-1 succeeded"
    rfl rfl rfl rfl rfl rfl rfl rfl).1
    { statusCode := 500, status := "500 Internal Server Error" } rfl

/-- Helper: on every path, one `SendNotification` call hands at most one
request to the transport, preserves the notifier's `filter`, `tmpl`, `url`
and `br` fields, and changes at most the build's `logUrl` (and only to a
successful annotation of the incoming `logUrl`). -/
theorem sendNotification_invariants (ext : Externals) (h : HttpNotifier)
    (build : Build) :
    (sendNotification ext h build).requests.length ≤ 1 /\
    (sendNotification ext h build).notifier.filter = h.filter /\
    (sendNotification ext h build).notifier.tmpl = h.tmpl /\
    (sendNotification ext h build).notifier.url = h.url /\
    (sendNotification ext h build).notifier.br = h.br /\
    (sendNotification ext h build).build.id = build.id /\
    (sendNotification ext h build).build.projectId = build.projectId /\
    (sendNotification ext h build).build.status = build.status /\
    ((sendNotification ext h build).build.logUrl = build.logUrl \/
      ∃ u, ext.addUTMParams build.logUrl HTTPMedium = Except.ok u /\
        (sendNotification ext h build).build.logUrl = u) := by
  unfold sendNotification
  cases hf2 : h.filter with
  | none => simp_all
  | some f =>
    try simp only [hf2]
    by_cases hfb : f build = false
    . simp_all
    . simp only [hfb, if_false]
      cases hbr2 : h.br with
      | none => simp_all
      | some br =>
        try simp only [hbr2]
        cases hres2 : br build with
        | error e => simp_all
        | ok bindings =>
          try simp only [hres2]
          cases hutm2 : ext.addUTMParams build.logUrl HTTPMedium with
          | error e => simp_all
          | ok logURL =>
            try simp only [hutm2]
            cases htm2 : h.tmpl with
            | none =>
              try simp only [htm2]
              simp_all
            | some tmpl =>
              try simp only [htm2]
              cases hren2 : tmpl { build := { build with logUrl := logURL }, params := bindings } with
              | error e =>
                try simp only [hren2]
                simp_all
              | ok rendered =>
                try simp only [hren2]
                by_cases hreq2 : ext.newRequestOk h.url = false
                . simp only [hreq2, if_true, if_false]
                  simp_all
                . simp only [hreq2, if_false]
                  cases hdo2 : ext.httpDo (mkRequest h.url rendered) with
                  | error e =>
                    try simp only [hdo2]
                    simp_all
                  | ok resp =>
                    try simp only [hdo2]
                    simp_all

/-- C7: when the predicate passes and every step succeeds, exactly one HTTP
POST is issued, to the configured URL, with `Content-Type: application/json`
and the fixed identifying `User-Agent`; and on every path at most one
delivery attempt is made. -/
theorem exactly_one_post_with_fixed_headers (ext : Externals)
    (h : HttpNotifier) (build : Build) (f : EventFilter)
    (br : BindingResolver) (bnd : Bindings) (u : String) (tmpl : Template)
    (rendered : String) (resp : HttpResponse)
    (hf : h.filter = some f) (hfb : f build = true)
    (hbr : h.br = some br) (hres : br build = Except.ok bnd)
    (hutm : ext.addUTMParams build.logUrl HTTPMedium = Except.ok u)
    (htm : h.tmpl = some tmpl)
    (hren : tmpl { build := { build with logUrl := u }, params := bnd }
      = Except.ok rendered)
    (hreq : ext.newRequestOk h.url = true)
    (hdo : ext.httpDo (mkRequest h.url rendered) = Except.ok resp) :
    (sendNotification ext h build).requests = [mkRequest h.url rendered] ∧
    (mkRequest h.url rendered).url = h.url ∧
    (mkRequest h.url rendered).method = "POST" ∧
    (mkRequest h.url rendered).headers =
      [("Content-Type", "application/json"),
        ("User-Agent", "GCB-Notifier/0.1 (http)")] ∧
    ∀ (ext2 : Externals) (h2 : HttpNotifier) (b2 : Build),
      (sendNotification ext2 h2 b2).requests.length ≤ 1 := by
  refine ⟨?_, rfl, rfl, rfl, fun ext2 h2 b2 => (sendNotification_invariants ext2 h2 b2).1⟩
  simp [sendNotification, hf, hfb, hbr, hres, hutm, htm, hren, hreq, hdo]

/-- Witness for C7: the scenario happy path issues exactly the one request
with the documented headers. -/
theorem exactly_one_post_with_fixed_headers_witness :
    (sendNotification extOk readyNotifier build1).requests
      = [mkRequest readyNotifier.url "Build b-1 succeeded"] ∧
    (mkRequest readyNotifier.url "Build b-1 succeeded").url = readyNotifier.url ∧
    (mkRequest readyNotifier.url "Build b-1 succeeded").method = "POST" ∧
    (mkRequest readyNotifier.url "Build b-1 succeeded").headers =
      [("Content-Type", "application/json"),
        ("User-Agent", "GCB-Notifier/0.1 (http)")] ∧
    ∀ (ext2 : Externals) (h2 : HttpNotifier) (b2 : Build),
      (sendNotification ext2 h2 b2).requests.length ≤ 1 :=
  exactly_one_post_with_fixed_headers extOk readyNotifier build1 successFilter
    emptyResolver [] annotatedLog scenarioTemplate "Build b-1 succeeded"
    { statusCode := 200, status := "200 OK" }
    rfl rfl rfl rfl rfl rfl rfl rfl rfl

/-- C8: when the event's log URL is not parseable, `AddUTMParams` fails and
`SendNotification` returns an error with zero renderings and zero HTTP
requests — the annotation failure aborts the rest of the call. -/
theorem malformed_log_url_aborts (ext : Externals) (h : HttpNotifier)
    (build : Build) (f : EventFilter) (br : BindingResolver) (bnd : Bindings)
    (e : String)
    (hf : h.filter = some f) (hfb : f build = true)
    (hbr : h.br = some br) (hres : br build = Except.ok bnd)
    (hutm : ext.addUTMParams build.logUrl HTTPMedium = Except.error e) :
    (sendNotification ext h build).result =
      SendResult.err ("failed to add UTM params: " ++ e) ∧
    (sendNotification ext h build).renderCalls = 0 ∧
    (sendNotification ext h build).requests = [] := by
  simp [sendNotification, hf, hfb, hbr, hres, hutm]

/-- Witness for C8: with an unparseable log URL the scenario call fails
before rendering and issues no request. -/
theorem malformed_log_url_aborts_witness :
    (sendNotification extBadLogUrl readyNotifier build1).result =
      SendResult.err ("failed to add UTM params: " ++ "missing protocol scheme") ∧
    (sendNotification extBadLogUrl readyNotifier build1).renderCalls = 0 ∧
    (sendNotification extBadLogUrl readyNotifier build1).requests = [] :=
  malformed_log_url_aborts extBadLogUrl readyNotifier build1 successFilter
    emptyResolver [] "missing protocol scheme" rfl rfl rfl rfl rfl

/-- C10: once URL annotation has succeeded, the caller's build keeps the
rewritten LogUrl even when a later step makes the call fail —
`SendNotification` never restores the event's prior state on error. -/
theorem log_url_rewrite_survives_failure (ext : Externals) (h : HttpNotifier)
    (build : Build) (f : EventFilter) (br : BindingResolver) (bnd : Bindings)
    (u : String)
    (hf : h.filter = some f) (hfb : f build = true)
    (hbr : h.br = some br) (hres : br build = Except.ok bnd)
    (hutm : ext.addUTMParams build.logUrl HTTPMedium = Except.ok u)
    (_hfail : (sendNotification ext h build).result ≠ SendResult.ok) :
    (sendNotification ext h build).build.logUrl = u := by
  simp [sendNotification, hf, hfb, hbr, hres, hutm]
  repeat' split
  all_goals simp

/-- Witness for C10: with the transport down, the scenario call fails but the
build's log URL stays annotated. -/
theorem log_url_rewrite_survives_failure_witness :
    (sendNotification extDown readyNotifier build1).build.logUrl = annotatedLog :=
  log_url_rewrite_survives_failure extDown readyNotifier build1 successFilter
    emptyResolver [] annotatedLog rfl rfl rfl rfl rfl (by decide)

/-- C5 (counterexample): not every instance field is left unchanged by event
handling — on the scenario happy path the `tmplView` field is nil before the
call and set afterwards, so `SendNotification` writes an instance field. -/
theorem handle_writes_tmpl_view_counterexample :
    readyNotifier.tmplView.isSome = false ∧
    ((sendNotification extOk readyNotifier build1).notifier.tmplView).isSome
      = true :=
  ⟨rfl, rfl⟩

/-- C5 (amended): after a successful `SetUp`, a `SendNotification` call
leaves the `filter`, `tmpl`, `url` and `br` fields of the notifier
unchanged; the `tmplView` field, however, is written during event handling
(it stashes the per-event template view on the shared instance). -/
theorem handle_preserves_config_fields (ext : Externals) (h : HttpNotifier)
    (build : Build) :
    (sendNotification ext h build).notifier.filter = h.filter ∧
    (sendNotification ext h build).notifier.tmpl = h.tmpl ∧
    (sendNotification ext h build).notifier.url = h.url ∧
    (sendNotification ext h build).notifier.br = h.br :=
  ⟨(sendNotification_invariants ext h build).2.1,
    (sendNotification_invariants ext h build).2.2.1,
    (sendNotification_invariants ext h build).2.2.2.1,
    (sendNotification_invariants ext h build).2.2.2.2.1⟩

/-- C6: on every path, the only field of the caller's build that is ever
modified is `logUrl`, and only to a successful annotation of the incoming
`logUrl`; `id`, `projectId` and `status` are unchanged when the call
returns. -/
theorem build_frame_condition (ext : Externals) (h : HttpNotifier)
    (build : Build) :
    (sendNotification ext h build).build.id = build.id ∧
    (sendNotification ext h build).build.projectId = build.projectId ∧
    (sendNotification ext h build).build.status = build.status ∧
    ((sendNotification ext h build).build.logUrl = build.logUrl ∨
      ∃ u, ext.addUTMParams build.logUrl HTTPMedium = Except.ok u ∧
        (sendNotification ext h build).build.logUrl = u) := by
  have hinv := sendNotification_invariants ext h build
  exact ⟨hinv.2.2.2.2.2.1, hinv.2.2.2.2.2.2.1, hinv.2.2.2.2.2.2.2.1,
    hinv.2.2.2.2.2.2.2.2⟩

/-- C1 (counterexample): in the spec's own scenario the body of the issued
POST is the raw rendered text `Build b-1 succeeded`, which differs from its
JSON-encoded string form (the rendered text with enclosing quotes). -/
theorem post_body_not_json_string_counterexample :
    (sendNotification extOk readyNotifier build1).requests.map HttpRequest.body
      = ["Build b-1 succeeded"] ∧
    jsonEncodeString "Build b-1 succeeded" = "\"Build b-1 succeeded\"" ∧
    ("Build b-1 succeeded" : String) ≠ "\"Build b-1 succeeded\"" := by
  refine ⟨rfl, rfl, by decide⟩

/-- C1 (amended): the body of the HTTP POST is the raw rendered template
output, not its JSON-encoded string form: `json.NewEncoder(payload).Encode(buf)`
JSON-encodes the `bytes.Buffer` value (yielding the empty JSON object) into a
`payload` buffer that is never used, and the request is built from
`buf.String()` directly. -/
theorem post_body_is_raw_rendered (ext : Externals) (h : HttpNotifier)
    (build : Build) (f : EventFilter) (br : BindingResolver) (bnd : Bindings)
    (u : String) (tmpl : Template) (rendered : String)
    (hf : h.filter = some f) (hfb : f build = true)
    (hbr : h.br = some br) (hres : br build = Except.ok bnd)
    (hutm : ext.addUTMParams build.logUrl HTTPMedium = Except.ok u)
    (htm : h.tmpl = some tmpl)
    (hren : tmpl { build := { build with logUrl := u }, params := bnd }
      = Except.ok rendered)
    (hreq : ext.newRequestOk h.url = true) :
    (sendNotification ext h build).requests = [mkRequest h.url rendered] ∧
    (mkRequest h.url rendered).body = rendered ∧
    encodedPayloadBuffer = "\x7b\x7d\n" := by
  refine ⟨?_, rfl, rfl⟩
  cases hdo : ext.httpDo (mkRequest h.url rendered) with
  | error e => simp [sendNotification, hf, hfb, hbr, hres, hutm, htm, hren, hreq, hdo]
  | ok resp => simp [sendNotification, hf, hfb, hbr, hres, hutm, htm, hren, hreq, hdo]

/-- Witness for the amended C1: on the scenario happy path the one request's
body is exactly the rendered text. -/
theorem post_body_is_raw_rendered_witness :
    (sendNotification extOk readyNotifier build1).requests
      = [mkRequest readyNotifier.url "Build b-1 succeeded"] ∧
    (mkRequest readyNotifier.url "Build b-1 succeeded").body
      = "Build b-1 succeeded" ∧
    encodedPayloadBuffer = "\x7b\x7d\n" :=
  post_body_is_raw_rendered extOk readyNotifier build1 successFilter
    emptyResolver [] annotatedLog scenarioTemplate "Build b-1 succeeded"
    rfl rfl rfl rfl rfl rfl rfl rfl

/-- C4 (counterexample): `SetUp` on a configuration whose delivery map lacks
`url` returns an error, yet the `filter` and `br` fields have been modified
(nil before the call, set after it) — a failed `SetUp` is not atomic. -/
theorem setup_failure_modifies_fields_counterexample :
    (setUp extOk initialNotifier cfgNoUrl templateSource emptyResolver).1
      ≠ SetupResult.ok ∧
    initialNotifier.filter.isSome = false ∧
    ((setUp extOk initialNotifier cfgNoUrl templateSource emptyResolver).2.filter).isSome
      = true ∧
    ((setUp extOk initialNotifier cfgNoUrl templateSource emptyResolver).2.br).isSome
      = true := by
  refine ⟨by decide, rfl, rfl, rfl⟩

/-- C4 (amended): a failed `SetUp` never sets the template field (so the
notifier stays unable to render), but it is not atomic: on predicate-compile
failure the notifier is unchanged; on a missing or non-string `url` it has
already set `filter` and `br`; on template-parse failure it has additionally
set `url`. -/
theorem setup_failure_partial_writes (ext : Externals) (h : HttpNotifier)
    (cfg : Config) (t : String) (br : BindingResolver) (msg : String)
    (herr : (setUp ext h cfg t br).1 = SetupResult.err msg) :
    (setUp ext h cfg t br).2.tmpl = h.tmpl ∧
    (setUp ext h cfg t br).2.tmplView = h.tmplView ∧
    ((setUp ext h cfg t br).2 = h ∨
      ∃ p, ext.makeCELPredicate cfg.spec.notification.filter = Except.ok p ∧
        ((setUp ext h cfg t br).2 = { h with filter := some p, br := some br } ∨
          ∃ u, lookupString cfg.spec.notification.delivery "url" = some u ∧
            (setUp ext h cfg t br).2 =
              { h with filter := some p, br := some br, url := u })) := by
  cases hmk : ext.makeCELPredicate cfg.spec.notification.filter with
  | error e => simp [setUp, hmk]
  | ok p =>
    cases hlk : lookupString cfg.spec.notification.delivery "url" with
    | none =>
      refine ⟨by simp [setUp, hmk, hlk], by simp [setUp, hmk, hlk],
        Or.inr ⟨p, rfl, Or.inl (by simp [setUp, hmk, hlk])⟩⟩
    | some u =>
      cases hpt : ext.parseTemplate t with
      | error e =>
        refine ⟨by simp [setUp, hmk, hlk, hpt], by simp [setUp, hmk, hlk, hpt],
          Or.inr ⟨p, rfl, Or.inr ⟨u, rfl, by simp [setUp, hmk, hlk, hpt]⟩⟩⟩
      | ok tm =>
        simp [setUp, hmk, hlk, hpt] at herr

/-- Witness for the amended C4: after the failed missing-`url` setup, the
template field is still its pre-call value (nil). -/
theorem setup_failure_partial_writes_witness :
    (setUp extOk initialNotifier cfgNoUrl templateSource emptyResolver).2.tmpl
      = initialNotifier.tmpl :=
  (setup_failure_partial_writes extOk initialNotifier cfgNoUrl templateSource
    emptyResolver "expected delivery config to have string field url" rfl).1

/-- C9: when the filter expression does not compile, `SetUp` returns an error
and the notifier (starting from its zero value, as `notifiers.Main` hands it
over) stays in the uninitialized state, unable to process events: every
subsequent `SendNotification` call hits the nil filter (a Go panic) and
issues no HTTP request. -/
theorem bad_filter_fails_setup (ext : Externals) (cfg : Config) (t : String)
    (br : BindingResolver) (e : String)
    (hmk : ext.makeCELPredicate cfg.spec.notification.filter = Except.error e) :
    (setUp ext initialNotifier cfg t br).1 =
      SetupResult.err ("failed to create CELPredicate: " ++ e) ∧
    (setUp ext initialNotifier cfg t br).2 = initialNotifier ∧
    ∀ build,
      (sendNotification ext (setUp ext initialNotifier cfg t br).2 build).result
        = SendResult.nilPanic ∧
      (sendNotification ext (setUp ext initialNotifier cfg t br).2 build).requests
        = [] := by
  refine ⟨by simp [setUp, hmk], by simp [setUp, hmk], ?_⟩
  intro build
  rw [show (setUp ext initialNotifier cfg t br).2 = initialNotifier from
    by simp [setUp, hmk]]
  exact ⟨rfl, rfl⟩

/-- Witness for C9: a concrete non-compiling filter expression fails `SetUp`
and leaves the notifier unable to handle any event. -/
theorem bad_filter_fails_setup_witness :
    (setUp extBadFilter initialNotifier cfgOk templateSource emptyResolver).1 =
      SetupResult.err ("failed to create CELPredicate: "
        ++ "undeclared reference to field") ∧
    (setUp extBadFilter initialNotifier cfgOk templateSource emptyResolver).2
      = initialNotifier ∧
    ∀ build,
      (sendNotification extBadFilter
        (setUp extBadFilter initialNotifier cfgOk templateSource emptyResolver).2
        build).result = SendResult.nilPanic ∧
      (sendNotification extBadFilter
        (setUp extBadFilter initialNotifier cfgOk templateSource emptyResolver).2
        build).requests = [] :=
  bad_filter_fails_setup extBadFilter cfgOk templateSource emptyResolver
    "undeclared reference to field" rfl

end CloudBuildNotifiersHttp
